import Mathlib

/-!
Shallow embedding of the data-recorder program (`record_data.py`) and proofs
about its recording-session controller, CSV serializer, debouncer, file-segment
rotation and interrupt handling.

Modelling conventions:
* Python floats are modelled as `Rat`; machine formatting `f"{x:.6f}"` is
  modelled by `fmt6` (fixed six-decimal rendering).
* The telemetry interface (`rtde_receive.RTDEReceiveInterface`) is modelled as
  a record of fallible getters: `none` models the getter raising an exception,
  `some v` a successful read.
* File handles are modelled as indices into a list of `FileRec` (name, lines
  written so far, open flag); `open(path, 'w')` appends a fresh record.
  Opening a file is fallible (the per-iteration input says whether each call
  to `open` succeeds); writes to an already open handle are modelled as
  infallible.
* One iteration of the `while True` loop in `main` is the function `step`;
  the external non-deterministic values an iteration consumes (state read,
  clocks, reported file size, getter results) are collected in `IterInput`.
-/

namespace RecordData

/-! ## RuntimeState enum values (record_data.py lines 8-14) -/

def RUNTIME_STATE_STOPPING : Nat := 0
def RUNTIME_STATE_STOPPED : Nat := 1
def RUNTIME_STATE_PLAYING : Nat := 2
def RUNTIME_STATE_PAUSING : Nat := 3
def RUNTIME_STATE_PAUSED : Nat := 4
def RUNTIME_STATE_RESUMING : Nat := 5

/-! ## Fixed-point decimal formatting, modelling Python `f"{x:.6f}"` -/

/-- Left-pad a string with zeros to width `w` (Python `str.zfill` / `{:03d}`). -/
def zpad (s : String) (w : Nat) : String :=
  String.mk (List.replicate (w - s.length) '0') ++ s

/-- Fixed-point rendering of a rational with `prec` decimal places; models
Python `f"{x:.Nf}"`.  The scaled value `⌊x·10^prec + 1/2⌋` is computed on the
numerator and denominator as `⌊(num·10^prec·2 + den) / (2·den)⌋`. -/
def fmtFixed (prec : Nat) (x : Rat) : String :=
  let n : Int := Int.fdiv (x.num * (10 : Int) ^ prec * 2 + (x.den : Int)) (2 * (x.den : Int))
  let sign := if n < 0 then "-" else ""
  let m := n.natAbs
  sign ++ toString (m / 10 ^ prec) ++ "." ++ zpad (toString (m % 10 ^ prec)) prec

/-- Python `f"{x:.6f}"`. -/
def fmt6 (x : Rat) : String := fmtFixed 6 x

/-! ## Variable catalog (write_csv_header, record_data.py lines 181-231) -/

/-- The `variable_sizes` dict of `write_csv_header`, as an ordered association
list: variable name to number of columns it contributes. -/
def variable_sizes : List (String × Nat) :=
  [("timestamp", 1),
   ("actual_execution_time", 1),
   ("robot_mode", 1),
   ("robot_status_bits", 1),
   ("safety_mode", 1),
   ("safety_status_bits", 1),
   ("speed_scaling", 1),
   ("target_speed_fraction", 1),
   ("actual_momentum", 1),
   ("actual_main_voltage", 1),
   ("actual_robot_voltage", 1),
   ("actual_robot_current", 1),
   ("actual_digital_input_bits", 1),
   ("actual_digital_output_bits", 1),
   ("runtime_state", 1),
   ("standard_analog_input0", 1),
   ("standard_analog_input1", 1),
   ("standard_analog_output0", 1),
   ("standard_analog_output1", 1),
   ("payload", 1),
   ("speed_scaling_combined", 1),
   ("target_q", 6),
   ("target_qd", 6),
   ("target_qdd", 6),
   ("target_current", 6),
   ("target_moment", 6),
   ("actual_q", 6),
   ("actual_qd", 6),
   ("actual_current", 6),
   ("joint_control_output", 6),
   ("actual_TCP_pose", 6),
   ("actual_TCP_speed", 6),
   ("actual_TCP_force", 6),
   ("target_TCP_pose", 6),
   ("target_TCP_speed", 6),
   ("joint_temperatures", 6),
   ("actual_joint_voltage", 6),
   ("payload_inertia", 6),
   ("ft_raw_wrench", 6),
   ("actual_current_as_torque", 6),
   ("actual_tool_accelerometer", 3),
   ("payload_cog", 3),
   ("joint_mode", 6)]

/-- `variable_sizes.get(var, 1)` — column count of a variable, defaulting to 1
for unrecognized names (write_csv_header line 235). -/
def variable_size (var : String) : Nat :=
  (List.lookup var variable_sizes).getD 1

/-- Columns a single variable contributes to the header: `var_0 … var_{N-1}`
for size `N > 1`, else `var` itself (write_csv_header lines 234-240). -/
def header_cells (var : String) : List String :=
  let size := variable_size var
  if size > 1 then (List.range size).map (fun j => var ++ "_" ++ toString j)
  else [var]

/-- The comma-separated parts of the CSV header line for a variable list. -/
def header_parts (vars : List String) : List String :=
  vars.flatMap header_cells

/-- The full header line written by `write_csv_header` (line 242). -/
def header_line (vars : List String) : String :=
  String.intercalate "," (header_parts vars) ++ "\n"

/-! ## The telemetry interface (RTDEReceiveInterface)

One field per getter used by `write_csv_row`; `none` models the call raising
an exception, `some v` a successful read returning `v`. -/

structure RTDE where
  getTimestamp : Option Rat
  getActualExecutionTime : Option Rat
  getRobotMode : Option Rat
  getRobotStatus : Option Rat
  getSafetyMode : Option Rat
  getSafetyStatusBits : Option Rat
  getSpeedScaling : Option Rat
  getTargetSpeedFraction : Option Rat
  getActualMomentum : Option Rat
  getActualMainVoltage : Option Rat
  getActualRobotVoltage : Option Rat
  getActualRobotCurrent : Option Rat
  getActualDigitalInputBits : Option Rat
  getActualDigitalOutputBits : Option Rat
  getRuntimeState : Option Rat
  getStandardAnalogInput0 : Option Rat
  getStandardAnalogInput1 : Option Rat
  getStandardAnalogOutput0 : Option Rat
  getStandardAnalogOutput1 : Option Rat
  getPayload : Option Rat
  getSpeedScalingCombined : Option Rat
  getTargetQ : Option (List Rat)
  getTargetQd : Option (List Rat)
  getTargetQdd : Option (List Rat)
  getTargetCurrent : Option (List Rat)
  getTargetMoment : Option (List Rat)
  getActualQ : Option (List Rat)
  getActualQd : Option (List Rat)
  getActualCurrent : Option (List Rat)
  getJointControlOutput : Option (List Rat)
  getActualTCPPose : Option (List Rat)
  getActualTCPSpeed : Option (List Rat)
  getActualTCPForce : Option (List Rat)
  getTargetTCPPose : Option (List Rat)
  getTargetTCPSpeed : Option (List Rat)
  getJointTemperatures : Option (List Rat)
  getActualJointVoltage : Option (List Rat)
  getPayloadInertia : Option (List Rat)
  getFtRawWrench : Option (List Rat)
  getActualCurrentAsTorque : Option (List Rat)
  getActualToolAccelerometer : Option (List Rat)
  getPayloadCog : Option (List Rat)
  getJointMode : Option (List Rat)
deriving Repr, DecidableEq

/-- The capability contract of §6: each vector getter, when it succeeds,
returns the fixed number of scalars declared for its variable. -/
def RTDE.WF (r : RTDE) : Prop :=
  (∀ l, r.getTargetQ = some l → l.length = 6) ∧
  (∀ l, r.getTargetQd = some l → l.length = 6) ∧
  (∀ l, r.getTargetQdd = some l → l.length = 6) ∧
  (∀ l, r.getTargetCurrent = some l → l.length = 6) ∧
  (∀ l, r.getTargetMoment = some l → l.length = 6) ∧
  (∀ l, r.getActualQ = some l → l.length = 6) ∧
  (∀ l, r.getActualQd = some l → l.length = 6) ∧
  (∀ l, r.getActualCurrent = some l → l.length = 6) ∧
  (∀ l, r.getJointControlOutput = some l → l.length = 6) ∧
  (∀ l, r.getActualTCPPose = some l → l.length = 6) ∧
  (∀ l, r.getActualTCPSpeed = some l → l.length = 6) ∧
  (∀ l, r.getActualTCPForce = some l → l.length = 6) ∧
  (∀ l, r.getTargetTCPPose = some l → l.length = 6) ∧
  (∀ l, r.getTargetTCPSpeed = some l → l.length = 6) ∧
  (∀ l, r.getJointTemperatures = some l → l.length = 6) ∧
  (∀ l, r.getActualJointVoltage = some l → l.length = 6) ∧
  (∀ l, r.getPayloadInertia = some l → l.length = 6) ∧
  (∀ l, r.getFtRawWrench = some l → l.length = 6) ∧
  (∀ l, r.getActualCurrentAsTorque = some l → l.length = 6) ∧
  (∀ l, r.getJointMode = some l → l.length = 6) ∧
  (∀ l, r.getActualToolAccelerometer = some l → l.length = 3) ∧
  (∀ l, r.getPayloadCog = some l → l.length = 3)

/-! ## CSV row serializer (write_csv_row, record_data.py lines 246-372) -/

/-- The `if var == … / elif …` dispatch of `write_csv_row` (lines 257-353):
the cells contributed by one variable when no exception occurs, or `none` when
the getter for that variable raises.  The unknown-variable branch (lines
350-353) appends one placeholder and cannot raise. -/
def fetch_cells (r : RTDE) (timestamp_offset : Rat) (var : String) :
    Option (List String) :=
  if var = "timestamp" then r.getTimestamp.map (fun t => [fmt6 (t + timestamp_offset)])
  else if var = "actual_execution_time" then r.getActualExecutionTime.map (fun v => [fmt6 v])
  else if var = "robot_mode" then r.getRobotMode.map (fun v => [fmt6 v])
  else if var = "robot_status_bits" then r.getRobotStatus.map (fun v => [fmt6 v])
  else if var = "safety_mode" then r.getSafetyMode.map (fun v => [fmt6 v])
  else if var = "safety_status_bits" then r.getSafetyStatusBits.map (fun v => [fmt6 v])
  else if var = "speed_scaling" then r.getSpeedScaling.map (fun v => [fmt6 v])
  else if var = "target_speed_fraction" then r.getTargetSpeedFraction.map (fun v => [fmt6 v])
  else if var = "actual_momentum" then r.getActualMomentum.map (fun v => [fmt6 v])
  else if var = "actual_main_voltage" then r.getActualMainVoltage.map (fun v => [fmt6 v])
  else if var = "actual_robot_voltage" then r.getActualRobotVoltage.map (fun v => [fmt6 v])
  else if var = "actual_robot_current" then r.getActualRobotCurrent.map (fun v => [fmt6 v])
  else if var = "actual_digital_input_bits" then r.getActualDigitalInputBits.map (fun v => [fmt6 v])
  else if var = "actual_digital_output_bits" then r.getActualDigitalOutputBits.map (fun v => [fmt6 v])
  else if var = "runtime_state" then r.getRuntimeState.map (fun v => [fmt6 v])
  else if var = "standard_analog_input0" then r.getStandardAnalogInput0.map (fun v => [fmt6 v])
  else if var = "standard_analog_input1" then r.getStandardAnalogInput1.map (fun v => [fmt6 v])
  else if var = "standard_analog_output0" then r.getStandardAnalogOutput0.map (fun v => [fmt6 v])
  else if var = "standard_analog_output1" then r.getStandardAnalogOutput1.map (fun v => [fmt6 v])
  else if var = "payload" then r.getPayload.map (fun v => [fmt6 v])
  else if var = "speed_scaling_combined" then r.getSpeedScalingCombined.map (fun v => [fmt6 v])
  else if var = "target_q" then r.getTargetQ.map (fun l => l.map fmt6)
  else if var = "target_qd" then r.getTargetQd.map (fun l => l.map fmt6)
  else if var = "target_qdd" then r.getTargetQdd.map (fun l => l.map fmt6)
  else if var = "target_current" then r.getTargetCurrent.map (fun l => l.map fmt6)
  else if var = "target_moment" then r.getTargetMoment.map (fun l => l.map fmt6)
  else if var = "actual_q" then r.getActualQ.map (fun l => l.map fmt6)
  else if var = "actual_qd" then r.getActualQd.map (fun l => l.map fmt6)
  else if var = "actual_current" then r.getActualCurrent.map (fun l => l.map fmt6)
  else if var = "joint_control_output" then r.getJointControlOutput.map (fun l => l.map fmt6)
  else if var = "actual_TCP_pose" then r.getActualTCPPose.map (fun l => l.map fmt6)
  else if var = "actual_TCP_speed" then r.getActualTCPSpeed.map (fun l => l.map fmt6)
  else if var = "actual_TCP_force" then r.getActualTCPForce.map (fun l => l.map fmt6)
  else if var = "target_TCP_pose" then r.getTargetTCPPose.map (fun l => l.map fmt6)
  else if var = "target_TCP_speed" then r.getTargetTCPSpeed.map (fun l => l.map fmt6)
  else if var = "joint_temperatures" then r.getJointTemperatures.map (fun l => l.map fmt6)
  else if var = "actual_joint_voltage" then r.getActualJointVoltage.map (fun l => l.map fmt6)
  else if var = "payload_inertia" then r.getPayloadInertia.map (fun l => l.map fmt6)
  else if var = "ft_raw_wrench" then r.getFtRawWrench.map (fun l => l.map fmt6)
  else if var = "actual_current_as_torque" then r.getActualCurrentAsTorque.map (fun l => l.map fmt6)
  else if var = "actual_tool_accelerometer" then r.getActualToolAccelerometer.map (fun l => l.map fmt6)
  else if var = "payload_cog" then r.getPayloadCog.map (fun l => l.map fmt6)
  else if var = "joint_mode" then r.getJointMode.map (fun l => l.map fmt6)
  else some ["0.000000"]

/-- The hard-coded list of size-6 variables in the exception handler of
`write_csv_row` (lines 359-364). -/
def handler_vector6_names : List String :=
  ["target_q", "target_qd", "target_qdd", "target_current", "target_moment",
   "actual_q", "actual_qd", "actual_current", "joint_control_output",
   "actual_TCP_pose", "actual_TCP_speed", "actual_TCP_force",
   "target_TCP_pose", "target_TCP_speed", "joint_temperatures",
   "actual_joint_voltage", "payload_inertia", "ft_raw_wrench",
   "actual_current_as_torque", "joint_mode"]

/-- The hard-coded list of size-3 variables in the exception handler (line 366). -/
def handler_vector3_names : List String :=
  ["actual_tool_accelerometer", "payload_cog"]

/-- `var_size` computed in the exception handler of `write_csv_row`
(lines 358-367): how many placeholder cells to emit on a fetch failure. -/
def failure_width (var : String) : Nat :=
  if var ∈ handler_vector6_names then 6
  else if var ∈ handler_vector3_names then 3
  else 1

/-- The cells one variable contributes to a row: the fetched values, or
`failure_width var` copies of the placeholder on an exception (lines 354-369). -/
def row_cells (r : RTDE) (timestamp_offset : Rat) (var : String) : List String :=
  match fetch_cells r timestamp_offset var with
  | some cells => cells
  | none => List.replicate (failure_width var) "0.000000"

/-- The comma-separated parts of one data row (`row_parts` in the source). -/
def row_parts (r : RTDE) (timestamp_offset : Rat) (vars : List String) : List String :=
  vars.flatMap (row_cells r timestamp_offset)

/-- The full data line written by `write_csv_row` (line 371). -/
def row_line (r : RTDE) (timestamp_offset : Rat) (vars : List String) : String :=
  String.intercalate "," (row_parts r timestamp_offset vars) ++ "\n"

/-! ## Filename handling (add_timestamp_to_filename, lines 131-156) -/

/-- Index of the last occurrence of `c` in `cs`, if any. -/
def lastIndexOf (cs : List Char) (c : Char) : Option Nat :=
  (List.range cs.length).foldl
    (fun acc i => if cs.get? i = some c then some i else acc) none

/-- Python `os.path.splitext` (posix): split at the last dot of the basename,
provided some earlier character of the basename is not a dot. -/
def splitext (p : String) : String × String :=
  let cs := p.toList
  let sepIdx : Int := match lastIndexOf cs '/' with | some i => i | none => -1
  let dotIdx : Int := match lastIndexOf cs '.' with | some i => i | none => -1
  let hasStem := (List.range cs.length).any
    (fun j => decide (sepIdx < j) && decide ((j : Int) < dotIdx) && (cs.getD j '.' != '.'))
  if dotIdx > sepIdx && hasStem then
    (String.mk (cs.take dotIdx.toNat), String.mk (cs.drop dotIdx.toNat))
  else (p, "")

/-- `add_timestamp_to_filename` (lines 131-156): insert the session timestamp
(and, when given, the zero-padded 3-digit file number) before the extension.
`nowStr` stands for `datetime.now().strftime(...)`, used when no base
timestamp is supplied. -/
def add_timestamp_to_filename (filename : String) (file_number : Option Nat)
    (base_timestamp : Option String) (nowStr : String) : String :=
  let ne := splitext filename
  let timestamp := match base_timestamp with | none => nowStr | some t => t
  match file_number with
  | some n => ne.1 ++ "_" ++ timestamp ++ "_" ++ zpad (toString n) 3 ++ ne.2
  | none => ne.1 ++ "_" ++ timestamp ++ ne.2

/-! ## Variable-list file and configuration (lines 84-128 and 384-396) -/

/-- The line-parsing loop of `load_variables_from_file` (lines 104-115). -/
def parse_variable_lines (lines : List String) : List String :=
  lines.foldl
    (fun acc line =>
      let line := line.trim
      if line = "" ∨ line.startsWith "#" then acc
      else if line.contains ',' then
        acc ++ ((line.splitOn ",").map String.trim).filter (fun v => v ≠ "")
      else acc ++ [line]) []

/-- Duplicate removal preserving first occurrence (lines 117-123). -/
def dedup_preserving_order (l : List String) : List String :=
  l.foldl (fun acc v => if v ∈ acc then acc else acc ++ [v]) []

/-- `load_variables_from_file` (lines 84-128): `none` models an absent file
(or a read error, both of which yield the empty list). -/
def load_variables_from_file (contents : Option (List String)) : List String :=
  match contents with
  | none => []
  | some lines => dedup_preserving_order (parse_variable_lines lines)

/-- Python truthiness of an optional float (`if args.max_file_size:` …). -/
def truthy (o : Option Rat) : Bool :=
  match o with
  | some x => x != 0
  | none => false

/-- The variable-resolution logic of `main` (lines 384-396): command line
takes precedence, then the variable-list file, then the "all variables"
message.  Returns the recorded variable list and the message printed.
Mirrors Python truthiness: an empty `-v` string falls through to the file. -/
def resolve_record_variables (cli : Option String) (fileContents : Option (List String)) :
    List String × String :=
  let fromFile : List String × String :=
    let vs := load_variables_from_file fileContents
    if vs ≠ [] then
      (vs, "Recording specified variables (from record_variables_input.txt): " ++
        String.intercalate ", " vs)
    else ([], "Recording all available variables")
  match cli with
  | some v =>
    if v ≠ "" then
      let vs := (v.splitOn ",").map String.trim
      (vs, "Recording specified variables (from command line): " ++
        String.intercalate ", " vs)
    else fromFile
  | none => fromFile

/-! ## The main loop state (main, lines 398-424) -/

/-- One output file: its path, the lines written to it so far, and whether
its handle is still open. -/
structure FileRec where
  name : String
  lines : List String
  isOpen : Bool
deriving Repr, DecidableEq

/-- The mutable state of `main`'s recording loop (lines 400-424), together
with the fixed configuration and the files created so far.
`current_file_handle` is an index into `files`. -/
structure LoopState where
  output_base : String
  max_file_size_mb : Option Rat
  max_duration_seconds : Option Rat
  record_variables : List String
  check_interval : Nat
  file_number : Nat
  current_session_timestamp : Option String
  current_output_file : Option String
  is_recording : Bool
  current_file_handle : Option Nat
  stable_state_count : Nat
  last_runtime_state : Option Nat
  has_recorded_before : Bool
  first_rtde_timestamp : Option Rat
  timestamp_offset : Rat
  file_start_time : Rat
  i : Nat
  samples_since_last_check : Nat
  files : List FileRec
deriving Repr, DecidableEq

/-- `stable_state_threshold = 3` (line 412). -/
def stable_state_threshold : Nat := 3

/-- The state of `main` just before the loop (lines 398-424), given the parsed
configuration.  `int(args.frequency)` is truncation, i.e. `floor` for the
positive frequencies the program is run with. -/
def initState (output : String) (frequency : Rat) (max_file_size : Option Rat)
    (max_duration : Option Rat) (record_vars : List String) : LoopState :=
  { output_base := output
    max_file_size_mb := max_file_size
    max_duration_seconds :=
      match max_duration with
      | some d => if d ≠ 0 then some (d * 60) else none
      | none => none
    record_variables := record_vars
    check_interval := frequency.floor.toNat
    file_number := 1
    current_session_timestamp := none
    current_output_file := none
    is_recording := false
    current_file_handle := none
    stable_state_count := 0
    last_runtime_state := none
    has_recorded_before := false
    first_rtde_timestamp := none
    timestamp_offset := 0
    file_start_time := 0
    i := 0
    samples_since_last_check := 0
    files := [] }

/-- Append a line to the file a handle refers to (`file_handle.write`). -/
def appendToFile (files : List FileRec) (idx : Nat) (line : String) : List FileRec :=
  match files.get? idx with
  | some f => files.set idx { f with lines := f.lines ++ [line] }
  | none => files

/-- Close the file a handle refers to (`file_handle.close()`). -/
def closeFile (files : List FileRec) (idx : Nat) : List FileRec :=
  match files.get? idx with
  | some f => files.set idx { f with isOpen := false }
  | none => files

/-- Lookup in the `state_names` dicts with the `UNKNOWN({runtime_state})`
default (lines 485-486 and 536-537). -/
def state_name_in (table : List (Nat × String)) (rs : Nat) : String :=
  match List.lookup rs table with
  | some n => n
  | none => "UNKNOWN(" ++ toString rs ++ ")"

/-- The `state_names` dict of the stop branch (line 485): no PLAYING entry. -/
def stop_state_names : List (Nat × String) :=
  [(0, "STOPPING"), (1, "STOPPED"), (3, "PAUSING"), (4, "PAUSED"), (5, "RESUMING")]

/-- The `state_names` dict of the status display (line 536). -/
def full_state_names : List (Nat × String) :=
  [(0, "STOPPING"), (1, "STOPPED"), (2, "PLAYING"), (3, "PAUSING"), (4, "PAUSED"),
   (5, "RESUMING")]

/-! ## One iteration of the main loop (lines 427-563) -/

/-- External values consumed by the periodic runtime-state check (the `try`
block at lines 434-492): the state read (`none` = `getRuntimeState` raised),
`datetime.now` as a formatted string, the device timestamp and wall clock
read at a session start, and whether the `open` at line 464 succeeds. -/
structure CheckInput where
  runtime_state : Option Nat
  nowStr : String
  anchorDeviceTs : Rat
  wall_clock : Rat
  openOk : Bool
deriving Repr, DecidableEq

/-- External values consumed by one full loop iteration. -/
structure IterInput where
  check : CheckInput
  dev : RTDE
  file_size_mb : Rat
  wall_clock2 : Rat
  rotOpenOk : Bool
  statusState : Option Nat
deriving Repr, DecidableEq

/-- The debounce update (lines 437-442): equal observation increments the
stability counter, a different one resets it and replaces the remembered
state. -/
def debounceUpdate (rs : Nat) (s : LoopState) : LoopState :=
  if some rs = s.last_runtime_state then
    { s with stable_state_count := s.stable_state_count + 1 }
  else
    { s with stable_state_count := 0, last_runtime_state := some rs }

/-- The session-start block (lines 445-475), entered with the debounced state
PLAYING, not recording, and the counter at threshold.  The session fields are
assigned first; then the `open` at line 464 either succeeds — header written,
recording turned on — or raises into the surrounding `except`, which warns
only if already recording (never, on this path). -/
def startRecording (inp : CheckInput) (s1 : LoopState) : LoopState × List String :=
  let ts := inp.nowStr
  let outfile := add_timestamp_to_filename s1.output_base
    (if truthy s1.max_file_size_mb || truthy s1.max_duration_seconds ||
        s1.has_recorded_before then some 1 else none)
    (some ts) inp.nowStr
  let s2 := { s1 with
    current_session_timestamp := some ts
    file_number := 1
    current_output_file := some outfile
    first_rtde_timestamp := some inp.anchorDeviceTs
    timestamp_offset := inp.wall_clock - inp.anchorDeviceTs }
  if inp.openOk then
    let s3 := { s2 with
      files := s2.files ++ [⟨outfile, [header_line s2.record_variables], true⟩]
      current_file_handle := some s2.files.length
      file_start_time := inp.wall_clock
      is_recording := true
      has_recorded_before := true
      stable_state_count := 0 }
    (s3,
      ["\nRobot is PLAYING - Recording started: " ++ outfile,
       "  Timestamp conversion: RTDE timestamps converted to physical time"] ++
      (if truthy s3.max_file_size_mb then
        ["  Max file size: " ++ toString (s3.max_file_size_mb.getD 0) ++ " MB"]
       else []) ++
      (if truthy s3.max_duration_seconds then
        ["  Max duration: " ++ toString (s3.max_duration_seconds.getD 0 / 60) ++
         " minutes per file"]
       else []))
  else
    (s2, if s2.is_recording then ["\nWarning: Could not check runtime_state"] else [])

/-- The session-stop block (lines 478-487): close and release the handle,
leave recording state. -/
def stopRecording (rs : Nat) (s1 : LoopState) : LoopState × List String :=
  let s2 :=
    match s1.current_file_handle with
    | some idx =>
      { s1 with files := closeFile s1.files idx, current_file_handle := none }
    | none => s1
  ({ s2 with is_recording := false, stable_state_count := 0 },
   ["\nRobot is " ++ state_name_in stop_state_names rs ++ " - Recording stopped"])

/-- The body of `if samples_since_last_check >= check_interval:` (lines
434-492), except the reset of the sample counter which line 432 performs
before it.  Returns the new state and the lines printed.  A `none` state read
models `getRuntimeState` raising: the `except` branch warns only while
recording (lines 489-492). -/
def checkPhase (inp : CheckInput) (s : LoopState) : LoopState × List String :=
  match inp.runtime_state with
  | none =>
    (s, if s.is_recording then ["\nWarning: Could not check runtime_state"] else [])
  | some rs =>
    let s1 := debounceUpdate rs s
    if rs = RUNTIME_STATE_PLAYING ∧ s1.is_recording = false then
      if s1.stable_state_count ≥ stable_state_threshold then startRecording inp s1
      else (s1, [])
    else if rs ≠ RUNTIME_STATE_PLAYING ∧ s1.is_recording = true then
      if s1.stable_state_count ≥ 2 then stopRecording rs s1
      else (s1, [])
    else (s1, [])

/-- The size trigger of the rotation policy (lines 504-508). -/
def rotation_size_hit (inp : IterInput) (s : LoopState) : Bool :=
  truthy s.max_file_size_mb && decide (s.max_file_size_mb.getD 0 ≤ inp.file_size_mb)

/-- The duration trigger of the rotation policy (lines 511-515). -/
def rotation_dur_hit (inp : IterInput) (s : LoopState) : Bool :=
  truthy s.max_duration_seconds &&
    decide (s.max_duration_seconds.getD 0 ≤ inp.wall_clock2 - s.file_start_time)

/-- The `split_reason` string; when both triggers hit, the duration message
wins because it is assigned last (line 515). -/
def split_reason_msg (inp : IterInput) (s : LoopState) : String :=
  if rotation_dur_hit inp s then
    "duration (" ++ fmtFixed 1 ((inp.wall_clock2 - s.file_start_time) / 60) ++
    " min >= " ++ toString (s.max_duration_seconds.getD 0 / 60) ++ " min)"
  else
    "file size (" ++ fmtFixed 2 inp.file_size_mb ++ " MB >= " ++
    toString (s.max_file_size_mb.getD 0) ++ " MB)"

/-- The rotation block (lines 517-530): close the current segment, increment
the counter, derive the new name from the session timestamp, open the new
segment and write its header.  The `open` at line 527 is outside every
handler: its failure (third component `true`) propagates out of the loop. -/
def rotateSegment (inp : IterInput) (idx : Nat) (s1 : LoopState) :
    LoopState × List String × Bool :=
  let files2 := closeFile s1.files idx
  let fnum := s1.file_number + 1
  let outfile := add_timestamp_to_filename s1.output_base (some fnum)
    s1.current_session_timestamp inp.check.nowStr
  let s2 := { s1 with
    files := files2
    file_number := fnum
    current_output_file := some outfile }
  if inp.rotOpenOk then
    let s3 := { s2 with
      files := s2.files ++ [⟨outfile, [header_line s2.record_variables], true⟩]
      current_file_handle := some s2.files.length
      file_start_time := inp.wall_clock2 }
    (s3, ["\nFile split: " ++ split_reason_msg inp s1, "New file started: " ++ outfile],
     false)
  else
    (s2, ["\nFile split: " ++ split_reason_msg inp s1], true)

/-- The data-row write and file-rotation block (lines 494-530). -/
def rowPhase (inp : IterInput) (s : LoopState) : LoopState × List String × Bool :=
  if s.is_recording = true ∧ s.current_file_handle.isSome then
    match s.current_file_handle with
    | none => (s, [], false)
    | some idx =>
      let s1 := { s with
        files := appendToFile s.files idx
          (row_line inp.dev s.timestamp_offset s.record_variables) }
      if truthy s1.max_file_size_mb || truthy s1.max_duration_seconds then
        if rotation_size_hit inp s1 || rotation_dur_hit inp s1 then
          rotateSegment inp idx s1
        else (s1, [], false)
      else (s1, [], false)
  else (s, [], false)

/-- Left-pad a string with spaces to width `w` (Python `{i:6d}`). -/
def spad (s : String) (w : Nat) : String :=
  String.mk (List.replicate (w - s.length) ' ') ++ s

/-- The every-10th-iteration status display (lines 532-559); produces output
only.  `inp.statusState = none` models the `try` around the second
`getRuntimeState` read falling into its bare `except` fallback. -/
def statusPhase (inp : IterInput) (s : LoopState) : List String :=
  if s.i % 10 = 0 then
    match inp.statusState with
    | some rs =>
      let nm := state_name_in full_state_names rs
      if s.is_recording then
        let m0 := spad (toString s.i) 6 ++ " samples | State: " ++ nm ++ " [RECORDING]"
        let m1 :=
          if truthy s.max_file_size_mb then
            m0 ++ " | Size: " ++ fmtFixed 2 inp.file_size_mb ++ " MB"
          else m0
        let m2 :=
          if truthy s.max_duration_seconds && (s.file_start_time != 0) then
            m1 ++ " | Time: " ++ fmtFixed 1 ((inp.wall_clock2 - s.file_start_time) / 60) ++
              " min"
          else m1
        ["\r" ++ m2]
      else ["\r" ++ "State: " ++ nm ++ " [WAITING]"]
    | none =>
      if s.is_recording then
        ["\r" ++ spad (toString s.i) 6 ++ " samples [RECORDING]"]
      else ["\r" ++ "State: UNKNOWN [WAITING]"]
  else []

/-- The tail of the loop body after the periodic check: row write and
rotation (lines 494-530), status display (lines 532-559) and the trailing
increments of `i` and `samples_since_last_check` (lines 562-563), which an
unhandled exception skips. -/
def stepCombine (inp : IterInput) (c : LoopState × List String) :
    LoopState × List String × Bool :=
  let r := rowPhase inp c.1
  if r.2.2 then (r.1, c.2 ++ r.2.1, true)
  else
    let out3 := statusPhase inp r.1
    ({ r.1 with i := r.1.i + 1, samples_since_last_check := r.1.samples_since_last_check + 1 },
     c.2 ++ r.2.1 ++ out3, false)

/-- One full iteration of `while True:` (lines 427-563).  The result is the
next state, the lines printed, and whether the iteration ended in an
unhandled exception (in which case the loop terminates). -/
def step (inp : IterInput) (s : LoopState) : LoopState × List String × Bool :=
  stepCombine inp
    (if s.samples_since_last_check ≥ s.check_interval then
      checkPhase inp.check { s with samples_since_last_check := 0 }
    else (s, []))

/-- Run the loop over a list of per-iteration inputs, stopping early if an
iteration raises; returns the final state and whether the run crashed. -/
def runLoop : List IterInput → LoopState → LoopState × Bool
  | [], s => (s, false)
  | inp :: rest, s =>
    let r := step inp s
    if r.2.2 then (r.1, true) else runLoop rest r.1

/-- The `except KeyboardInterrupt` handler (lines 565-570): close the open
handle if any, print the total-sample line, and print the file-count line
only when currently recording with more than one file. -/
def handleInterrupt (s : LoopState) : LoopState × List String :=
  let s1 :=
    match s.current_file_handle with
    | some idx => { s with files := closeFile s.files idx }
    | none => s
  (s1,
   ["\nData recording stopped. Total samples: " ++ toString s.i] ++
   (if s.is_recording && decide (1 < s.file_number) then
     ["Recorded " ++ toString s.file_number ++ " file(s)"]
    else []))

/-- The process exit code after a KeyboardInterrupt: `main` returns normally
from the handler, so the interpreter exits with 0. -/
def interrupt_exit_code : Nat := 0

/-! ## Feeding the debouncer at check-interval granularity -/

/-- A benign check input carrying a given state read: fixed session timestamp
string, device timestamp and wall clock zero, `open` succeeding. -/
def plainCheck (rs : Option Nat) : CheckInput :=
  ⟨rs, "2024-01-15_14-30-45", 0, 0, true⟩

/-- Feed the periodic state check one observed state per check interval, as
the loop does at lines 431-492. -/
def runChecks (states : List (Option Nat)) (s : LoopState) : LoopState :=
  states.foldl (fun st rs => (checkPhase (plainCheck rs) st).1) s

/-- A default configuration: `robot_data.csv`, 250 Hz, no size limit, the
default 60-minute duration limit, recording just `timestamp`. -/
def defaultInit : LoopState :=
  initState "robot_data.csv" 250 none (some 60) ["timestamp"]

/-- The state sequence of Scenario A: `[STOPPED]×5` then `[PLAYING]×k`. -/
def scenarioA (k : Nat) : List (Option Nat) :=
  List.replicate 5 (some RUNTIME_STATE_STOPPED) ++
    List.replicate k (some RUNTIME_STATE_PLAYING)

/-! ## Concrete telemetry devices for witnesses -/

/-- A device on which every getter raises. -/
def devAllFail : RTDE :=
  ⟨none, none, none, none, none, none, none, none, none, none, none, none, none, none, none, none, none, none, none, none, none, none, none, none, none, none, none, none, none, none, none, none, none, none, none, none, none, none, none, none, none, none, none⟩

/-- A device with a working timestamp and joint-position read; every other
getter raises. -/
def devSample : RTDE :=
  { devAllFail with getTimestamp := some 10, getActualQ := some [0, 0, 0, 0, 0, 0] }

/-- A concrete mid-session recording state: one open segment, size-rotation
policy of 1 MB active, duration policy off, recording `timestamp` only. -/
def recState : LoopState :=
  { output_base := "robot_data.csv"
    max_file_size_mb := some 1
    max_duration_seconds := none
    record_variables := ["timestamp"]
    check_interval := 250
    file_number := 1
    current_session_timestamp := some "2024-01-15_14-30-45"
    current_output_file := some "robot_data_2024-01-15_14-30-45_001.csv"
    is_recording := true
    current_file_handle := some 0
    stable_state_count := 0
    last_runtime_state := some 2
    has_recorded_before := true
    first_rtde_timestamp := some 10
    timestamp_offset := 90
    file_start_time := 100
    i := 1
    samples_since_last_check := 0
    files := [⟨"robot_data_2024-01-15_14-30-45_001.csv", [header_line ["timestamp"]], true⟩] }

/-- A concrete waiting state one stable PLAYING check away from a session
start: last observed state PLAYING, stability counter at 2. -/
def waitState : LoopState :=
  { output_base := "robot_data.csv"
    max_file_size_mb := none
    max_duration_seconds := none
    record_variables := ["timestamp"]
    check_interval := 250
    file_number := 1
    current_session_timestamp := none
    current_output_file := none
    is_recording := false
    current_file_handle := none
    stable_state_count := 2
    last_runtime_state := some 2
    has_recorded_before := false
    first_rtde_timestamp := none
    timestamp_offset := 0
    file_start_time := 0
    i := 1
    samples_since_last_check := 250
    files := [] }

/-- A benign full-iteration input reporting PLAYING and a given segment size
on disk; every telemetry getter raises, so the row is all placeholders. -/
def sizedInput (size : Rat) : IterInput :=
  { check := ⟨some 2, "2024-01-15_14-30-45", 10, 100, true⟩
    dev := devAllFail
    file_size_mb := size
    wall_clock2 := 100
    rotOpenOk := true
    statusState := some 2 }

/-- The input of the silent-open-failure run: the `open` at session start
fails, everything else is benign. -/
def openFailInput : IterInput :=
  { check := ⟨some 2, "2024-01-15_14-30-45", 10, 100, false⟩
    dev := devAllFail
    file_size_mb := 0
    wall_clock2 := 100
    rotOpenOk := true
    statusState := some 2 }

/-- The loop invariant of claim C10: recording iff a handle is held; the
handle refers to an in-range, open file whose first written line is the
header for the configured variable list; and every open file is the handle
target (hence at most one file is open). -/
def Inv (s : LoopState) : Prop :=
  (s.is_recording = true ↔ s.current_file_handle ≠ none) ∧
  (∀ idx, s.current_file_handle = some idx →
    ∃ f, s.files.get? idx = some f ∧ f.isOpen = true ∧
      f.lines.head? = some (header_line s.record_variables)) ∧
  (∀ j f, s.files.get? j = some f → f.isOpen = true →
    s.current_file_handle = some j)

/-- Every line ever written, across all files created so far. -/
def allLines (s : LoopState) : List String :=
  (s.files.map FileRec.lines).flatten

/-! ## Claim C1: debounce behaviour -/

/-- While recording with PLAYING as the last observed state, a further
PLAYING check only increments the stability counter: neither transition
branch fires. -/
theorem checkPhase_playing_while_recording (s : LoopState)
    (h1 : s.is_recording = true) (h2 : s.last_runtime_state = some 2) :
    checkPhase (plainCheck (some 2)) s =
      ({ s with stable_state_count := s.stable_state_count + 1 }, []) := by
  simp [checkPhase, debounceUpdate, plainCheck, h1, h2, RUNTIME_STATE_PLAYING]

/-- `runChecks` distributes over list append. -/
theorem runChecks_append (l1 l2 : List (Option Nat)) (s : LoopState) :
    runChecks (l1 ++ l2) s = runChecks l2 (runChecks l1 s) := by
  simp [runChecks, List.foldl_append]

/-- After the debouncer fires at the 4th consecutive PLAYING check, further
PLAYING checks keep recording on with the single opened segment: the
transition does not fire again. -/
theorem scenarioA_ge_four (j : Nat) :
    (runChecks (scenarioA (4 + j)) defaultInit).is_recording = true ∧
    (runChecks (scenarioA (4 + j)) defaultInit).files.length = 1 ∧
    (runChecks (scenarioA (4 + j)) defaultInit).last_runtime_state = some 2 := by
  induction j with
  | zero => exact ⟨by decide, by decide, by decide⟩
  | succ j ih =>
    have hsplit : scenarioA (4 + (j + 1)) = scenarioA (4 + j) ++ [some 2] := by
      show List.replicate 5 (some 1) ++ List.replicate (4 + j + 1) (some 2) = _
      rw [List.replicate_succ' (4 + j)]
      simp [scenarioA, RUNTIME_STATE_PLAYING, RUNTIME_STATE_STOPPED]
    rw [hsplit, runChecks_append]
    have hstep := checkPhase_playing_while_recording _ ih.1 ih.2.2
    have hone : runChecks [some 2] (runChecks (scenarioA (4 + j)) defaultInit) =
        (checkPhase (plainCheck (some 2)) (runChecks (scenarioA (4 + j)) defaultInit)).1 :=
      rfl
    rw [hone, hstep]
    exact ⟨ih.1, ih.2.1, ih.2.2⟩

/-- C1 (amended): at check-interval granularity, fewer than four consecutive
PLAYING observations never start recording — in particular `[STOPPED]×5,
[PLAYING]×3` does not — and from the 4th consecutive PLAYING check on,
recording has started, with exactly one segment opened (the transition fires
exactly once: continuing to feed PLAYING opens no further segment).  The code
resets the counter on a state change and fires at counter ≥ 3, so the
enter-PLAYING transition needs threshold + 1 = 4 consecutive observations. -/
theorem debounce_transition_counts (k : Nat) :
    (runChecks (scenarioA k) defaultInit).is_recording = decide (4 ≤ k) ∧
    (runChecks (scenarioA k) defaultInit).files.length = if 4 ≤ k then 1 else 0 := by
  match k with
  | 0 => exact ⟨by decide, by decide⟩
  | 1 => exact ⟨by decide, by decide⟩
  | 2 => exact ⟨by decide, by decide⟩
  | 3 => exact ⟨by decide, by decide⟩
  | (n + 4) =>
    have h4 : 4 ≤ n + 4 := by omega
    have hge := scenarioA_ge_four n
    rw [show 4 + n = n + 4 from by omega] at hge
    refine ⟨?_, ?_⟩
    · rw [hge.1]
      simp [h4]
    · rw [hge.2.1, if_pos h4]

/-- C1 counterexample: the claim as stated says `[STOPPED]×5, [PLAYING]×3`
starts recording at the 3rd consecutive PLAYING check; on the code, after
that exact sequence recording has not started and no segment was ever
opened. -/
theorem debounce_three_playing_no_start :
    (runChecks (scenarioA 3) defaultInit).is_recording = false ∧
    (runChecks (scenarioA 3) defaultInit).files.length = 0 := by
  decide


/-! ## Claim C2: header/row width invariant -/

/-- A key absent from every pair of an association list looks up to `none`. -/
theorem lookup_none_of_ne (k : String) :
    ∀ (l : List (String × Nat)), (∀ p ∈ l, k ≠ p.1) → List.lookup k l = none := by
  intro l
  induction l with
  | nil => intro _; rfl
  | cons p rest ih =>
    intro hall
    obtain ⟨a, b⟩ := p
    have hne : (k == a) = false := by
      have := hall (a, b) (List.mem_cons_self _ _)
      simpa using this
    simp only [List.lookup, hne]
    exact ih (fun q hq => hall q (List.mem_cons_of_mem _ hq))

/-- If every value of an association list is at least 1, so is any lookup. -/
theorem one_le_lookup (k : String) :
    ∀ (l : List (String × Nat)) (v : Nat), (∀ p ∈ l, 1 ≤ p.2) →
      List.lookup k l = some v → 1 ≤ v := by
  intro l
  induction l with
  | nil => intro v _ h; exact absurd h (by simp [List.lookup])
  | cons p rest ih =>
    intro v hall h
    obtain ⟨a, b⟩ := p
    simp only [List.lookup] at h
    cases hk : (k == a) with
    | true =>
      rw [hk] at h
      simp only [Option.some.injEq] at h
      have hb := hall (a, b) (List.mem_cons_self _ _)
      simp only at hb
      omega
    | false =>
      rw [hk] at h
      exact ih v (fun q hq => hall q (List.mem_cons_of_mem _ hq)) h

/-- Every variable contributes at least one column. -/
theorem variable_size_pos (var : String) : 1 ≤ variable_size var := by
  unfold variable_size
  cases h : List.lookup var variable_sizes with
  | none => exact le_refl 1
  | some n =>
    simp only [Option.getD_some]
    exact one_le_lookup var variable_sizes n (by decide) h

/-- The header contributes exactly `variable_size var` columns per variable. -/
theorem header_cells_length (var : String) :
    (header_cells var).length = variable_size var := by
  unfold header_cells
  by_cases h : variable_size var > 1
  · simp [h]
  · have := variable_size_pos var
    simp only [h, if_false]
    simp only [List.length_singleton]
    omega

/-- A successful fetch returns exactly `variable_size var` cells, under the
capability contract `RTDE.WF`. -/
theorem fetch_cells_length (r : RTDE) (hw : r.WF) (off : Rat) (var : String)
    (cells : List String) (h : fetch_cells r off var = some cells) :
    cells.length = variable_size var := by
  obtain ⟨w1, w2, w3, w4, w5, w6, w7, w8, w9, w10, w11, w12, w13, w14, w15, w16, w17, w18, w19, w20, w21, w22⟩ := hw
  by_cases hmem : var ∈ variable_sizes.map Prod.fst
  · fin_cases hmem
    · rcases Option.map_eq_some'.mp h with ⟨v, hg, rfl⟩
      simp only [List.length_singleton]
      decide
    · rcases Option.map_eq_some'.mp h with ⟨v, hg, rfl⟩
      simp only [List.length_singleton]
      decide
    · rcases Option.map_eq_some'.mp h with ⟨v, hg, rfl⟩
      simp only [List.length_singleton]
      decide
    · rcases Option.map_eq_some'.mp h with ⟨v, hg, rfl⟩
      simp only [List.length_singleton]
      decide
    · rcases Option.map_eq_some'.mp h with ⟨v, hg, rfl⟩
      simp only [List.length_singleton]
      decide
    · rcases Option.map_eq_some'.mp h with ⟨v, hg, rfl⟩
      simp only [List.length_singleton]
      decide
    · rcases Option.map_eq_some'.mp h with ⟨v, hg, rfl⟩
      simp only [List.length_singleton]
      decide
    · rcases Option.map_eq_some'.mp h with ⟨v, hg, rfl⟩
      simp only [List.length_singleton]
      decide
    · rcases Option.map_eq_some'.mp h with ⟨v, hg, rfl⟩
      simp only [List.length_singleton]
      decide
    · rcases Option.map_eq_some'.mp h with ⟨v, hg, rfl⟩
      simp only [List.length_singleton]
      decide
    · rcases Option.map_eq_some'.mp h with ⟨v, hg, rfl⟩
      simp only [List.length_singleton]
      decide
    · rcases Option.map_eq_some'.mp h with ⟨v, hg, rfl⟩
      simp only [List.length_singleton]
      decide
    · rcases Option.map_eq_some'.mp h with ⟨v, hg, rfl⟩
      simp only [List.length_singleton]
      decide
    · rcases Option.map_eq_some'.mp h with ⟨v, hg, rfl⟩
      simp only [List.length_singleton]
      decide
    · rcases Option.map_eq_some'.mp h with ⟨v, hg, rfl⟩
      simp only [List.length_singleton]
      decide
    · rcases Option.map_eq_some'.mp h with ⟨v, hg, rfl⟩
      simp only [List.length_singleton]
      decide
    · rcases Option.map_eq_some'.mp h with ⟨v, hg, rfl⟩
      simp only [List.length_singleton]
      decide
    · rcases Option.map_eq_some'.mp h with ⟨v, hg, rfl⟩
      simp only [List.length_singleton]
      decide
    · rcases Option.map_eq_some'.mp h with ⟨v, hg, rfl⟩
      simp only [List.length_singleton]
      decide
    · rcases Option.map_eq_some'.mp h with ⟨v, hg, rfl⟩
      simp only [List.length_singleton]
      decide
    · rcases Option.map_eq_some'.mp h with ⟨v, hg, rfl⟩
      simp only [List.length_singleton]
      decide
    · rcases Option.map_eq_some'.mp h with ⟨v, hg, rfl⟩
      simp only [List.length_map]
      refine (w1 v hg).trans ?_
      decide
    · rcases Option.map_eq_some'.mp h with ⟨v, hg, rfl⟩
      simp only [List.length_map]
      refine (w2 v hg).trans ?_
      decide
    · rcases Option.map_eq_some'.mp h with ⟨v, hg, rfl⟩
      simp only [List.length_map]
      refine (w3 v hg).trans ?_
      decide
    · rcases Option.map_eq_some'.mp h with ⟨v, hg, rfl⟩
      simp only [List.length_map]
      refine (w4 v hg).trans ?_
      decide
    · rcases Option.map_eq_some'.mp h with ⟨v, hg, rfl⟩
      simp only [List.length_map]
      refine (w5 v hg).trans ?_
      decide
    · rcases Option.map_eq_some'.mp h with ⟨v, hg, rfl⟩
      simp only [List.length_map]
      refine (w6 v hg).trans ?_
      decide
    · rcases Option.map_eq_some'.mp h with ⟨v, hg, rfl⟩
      simp only [List.length_map]
      refine (w7 v hg).trans ?_
      decide
    · rcases Option.map_eq_some'.mp h with ⟨v, hg, rfl⟩
      simp only [List.length_map]
      refine (w8 v hg).trans ?_
      decide
    · rcases Option.map_eq_some'.mp h with ⟨v, hg, rfl⟩
      simp only [List.length_map]
      refine (w9 v hg).trans ?_
      decide
    · rcases Option.map_eq_some'.mp h with ⟨v, hg, rfl⟩
      simp only [List.length_map]
      refine (w10 v hg).trans ?_
      decide
    · rcases Option.map_eq_some'.mp h with ⟨v, hg, rfl⟩
      simp only [List.length_map]
      refine (w11 v hg).trans ?_
      decide
    · rcases Option.map_eq_some'.mp h with ⟨v, hg, rfl⟩
      simp only [List.length_map]
      refine (w12 v hg).trans ?_
      decide
    · rcases Option.map_eq_some'.mp h with ⟨v, hg, rfl⟩
      simp only [List.length_map]
      refine (w13 v hg).trans ?_
      decide
    · rcases Option.map_eq_some'.mp h with ⟨v, hg, rfl⟩
      simp only [List.length_map]
      refine (w14 v hg).trans ?_
      decide
    · rcases Option.map_eq_some'.mp h with ⟨v, hg, rfl⟩
      simp only [List.length_map]
      refine (w15 v hg).trans ?_
      decide
    · rcases Option.map_eq_some'.mp h with ⟨v, hg, rfl⟩
      simp only [List.length_map]
      refine (w16 v hg).trans ?_
      decide
    · rcases Option.map_eq_some'.mp h with ⟨v, hg, rfl⟩
      simp only [List.length_map]
      refine (w17 v hg).trans ?_
      decide
    · rcases Option.map_eq_some'.mp h with ⟨v, hg, rfl⟩
      simp only [List.length_map]
      refine (w18 v hg).trans ?_
      decide
    · rcases Option.map_eq_some'.mp h with ⟨v, hg, rfl⟩
      simp only [List.length_map]
      refine (w19 v hg).trans ?_
      decide
    · rcases Option.map_eq_some'.mp h with ⟨v, hg, rfl⟩
      simp only [List.length_map]
      refine (w21 v hg).trans ?_
      decide
    · rcases Option.map_eq_some'.mp h with ⟨v, hg, rfl⟩
      simp only [List.length_map]
      refine (w22 v hg).trans ?_
      decide
    · rcases Option.map_eq_some'.mp h with ⟨v, hg, rfl⟩
      simp only [List.length_map]
      refine (w20 v hg).trans ?_
      decide
  · unfold fetch_cells at h
    rw [if_neg (fun hh : var = "timestamp" => hmem (by rw [hh]; decide))] at h
    rw [if_neg (fun hh : var = "actual_execution_time" => hmem (by rw [hh]; decide))] at h
    rw [if_neg (fun hh : var = "robot_mode" => hmem (by rw [hh]; decide))] at h
    rw [if_neg (fun hh : var = "robot_status_bits" => hmem (by rw [hh]; decide))] at h
    rw [if_neg (fun hh : var = "safety_mode" => hmem (by rw [hh]; decide))] at h
    rw [if_neg (fun hh : var = "safety_status_bits" => hmem (by rw [hh]; decide))] at h
    rw [if_neg (fun hh : var = "speed_scaling" => hmem (by rw [hh]; decide))] at h
    rw [if_neg (fun hh : var = "target_speed_fraction" => hmem (by rw [hh]; decide))] at h
    rw [if_neg (fun hh : var = "actual_momentum" => hmem (by rw [hh]; decide))] at h
    rw [if_neg (fun hh : var = "actual_main_voltage" => hmem (by rw [hh]; decide))] at h
    rw [if_neg (fun hh : var = "actual_robot_voltage" => hmem (by rw [hh]; decide))] at h
    rw [if_neg (fun hh : var = "actual_robot_current" => hmem (by rw [hh]; decide))] at h
    rw [if_neg (fun hh : var = "actual_digital_input_bits" => hmem (by rw [hh]; decide))] at h
    rw [if_neg (fun hh : var = "actual_digital_output_bits" => hmem (by rw [hh]; decide))] at h
    rw [if_neg (fun hh : var = "runtime_state" => hmem (by rw [hh]; decide))] at h
    rw [if_neg (fun hh : var = "standard_analog_input0" => hmem (by rw [hh]; decide))] at h
    rw [if_neg (fun hh : var = "standard_analog_input1" => hmem (by rw [hh]; decide))] at h
    rw [if_neg (fun hh : var = "standard_analog_output0" => hmem (by rw [hh]; decide))] at h
    rw [if_neg (fun hh : var = "standard_analog_output1" => hmem (by rw [hh]; decide))] at h
    rw [if_neg (fun hh : var = "payload" => hmem (by rw [hh]; decide))] at h
    rw [if_neg (fun hh : var = "speed_scaling_combined" => hmem (by rw [hh]; decide))] at h
    rw [if_neg (fun hh : var = "target_q" => hmem (by rw [hh]; decide))] at h
    rw [if_neg (fun hh : var = "target_qd" => hmem (by rw [hh]; decide))] at h
    rw [if_neg (fun hh : var = "target_qdd" => hmem (by rw [hh]; decide))] at h
    rw [if_neg (fun hh : var = "target_current" => hmem (by rw [hh]; decide))] at h
    rw [if_neg (fun hh : var = "target_moment" => hmem (by rw [hh]; decide))] at h
    rw [if_neg (fun hh : var = "actual_q" => hmem (by rw [hh]; decide))] at h
    rw [if_neg (fun hh : var = "actual_qd" => hmem (by rw [hh]; decide))] at h
    rw [if_neg (fun hh : var = "actual_current" => hmem (by rw [hh]; decide))] at h
    rw [if_neg (fun hh : var = "joint_control_output" => hmem (by rw [hh]; decide))] at h
    rw [if_neg (fun hh : var = "actual_TCP_pose" => hmem (by rw [hh]; decide))] at h
    rw [if_neg (fun hh : var = "actual_TCP_speed" => hmem (by rw [hh]; decide))] at h
    rw [if_neg (fun hh : var = "actual_TCP_force" => hmem (by rw [hh]; decide))] at h
    rw [if_neg (fun hh : var = "target_TCP_pose" => hmem (by rw [hh]; decide))] at h
    rw [if_neg (fun hh : var = "target_TCP_speed" => hmem (by rw [hh]; decide))] at h
    rw [if_neg (fun hh : var = "joint_temperatures" => hmem (by rw [hh]; decide))] at h
    rw [if_neg (fun hh : var = "actual_joint_voltage" => hmem (by rw [hh]; decide))] at h
    rw [if_neg (fun hh : var = "payload_inertia" => hmem (by rw [hh]; decide))] at h
    rw [if_neg (fun hh : var = "ft_raw_wrench" => hmem (by rw [hh]; decide))] at h
    rw [if_neg (fun hh : var = "actual_current_as_torque" => hmem (by rw [hh]; decide))] at h
    rw [if_neg (fun hh : var = "actual_tool_accelerometer" => hmem (by rw [hh]; decide))] at h
    rw [if_neg (fun hh : var = "payload_cog" => hmem (by rw [hh]; decide))] at h
    rw [if_neg (fun hh : var = "joint_mode" => hmem (by rw [hh]; decide))] at h
    injection h with h2
    subst h2
    have hnone : List.lookup var variable_sizes = none := by
      apply lookup_none_of_ne
      intro p hp
      exact fun heq => hmem (by rw [heq]; exact List.mem_map_of_mem Prod.fst hp)
    simp only [List.length_singleton, variable_size, hnone, Option.getD_none]

/-- The exception handler of `write_csv_row` emits exactly as many
placeholder cells as the header allots the variable: the hard-coded failure
lists agree with the `variable_sizes` dict. -/
theorem failure_width_eq (var : String) : failure_width var = variable_size var := by
  by_cases hmem : var ∈ variable_sizes.map Prod.fst
  · fin_cases hmem <;> decide
  · have hkeys6 : ∀ x ∈ handler_vector6_names, x ∈ variable_sizes.map Prod.fst := by decide
    have hkeys3 : ∀ x ∈ handler_vector3_names, x ∈ variable_sizes.map Prod.fst := by decide
    have h6 : var ∉ handler_vector6_names := fun hc => hmem (hkeys6 var hc)
    have h3 : var ∉ handler_vector3_names := fun hc => hmem (hkeys3 var hc)
    have hnone : List.lookup var variable_sizes = none := by
      apply lookup_none_of_ne
      intro p hp
      intro heq
      exact hmem (by rw [heq]; exact List.mem_map_of_mem Prod.fst hp)
    simp only [failure_width, h6, h3, if_false, variable_size, hnone, Option.getD_none]

/-- Each variable contributes exactly `variable_size var` cells to a row,
whether its fetch succeeds or raises. -/
theorem row_cells_length (r : RTDE) (hw : r.WF) (off : Rat) (var : String) :
    (row_cells r off var).length = variable_size var := by
  unfold row_cells
  cases h : fetch_cells r off var with
  | none => simp [List.length_replicate, failure_width_eq]
  | some cells => exact fetch_cells_length r hw off var cells h

/-- C2: for every variable list (unknown names included) and every row —
rows with any mix of fetched values and failure placeholders — the number of
comma-separated fields written by `write_csv_row` equals the number of
column names written by `write_csv_header`, provided the telemetry source
honours its arity contract on successful reads. -/
theorem header_row_width_invariant (r : RTDE) (off : Rat) (vs : List String)
    (hw : r.WF) :
    (header_parts vs).length = (row_parts r off vs).length := by
  induction vs with
  | nil => rfl
  | cons v rest ih =>
    simp only [header_parts, row_parts, List.flatMap_cons, List.length_append] at *
    rw [header_cells_length, row_cells_length r hw off v, ih]


/-- `devSample` honours the arity contract. -/
theorem devSample_WF : devSample.WF :=
  ⟨(fun l h => nomatch h),
   (fun l h => nomatch h),
   (fun l h => nomatch h),
   (fun l h => nomatch h),
   (fun l h => nomatch h),
   (fun l h => by injection h with h2; rw [← h2]; decide),
   (fun l h => nomatch h),
   (fun l h => nomatch h),
   (fun l h => nomatch h),
   (fun l h => nomatch h),
   (fun l h => nomatch h),
   (fun l h => nomatch h),
   (fun l h => nomatch h),
   (fun l h => nomatch h),
   (fun l h => nomatch h),
   (fun l h => nomatch h),
   (fun l h => nomatch h),
   (fun l h => nomatch h),
   (fun l h => nomatch h),
   (fun l h => nomatch h),
   (fun l h => nomatch h),
   (fun l h => nomatch h)⟩

/-- Witness: on a concrete device with one successful vector read, one failed
vector read and an unknown variable name, header and row widths agree. -/
theorem header_row_width_invariant_witness :
    (header_parts ["timestamp", "actual_q", "actual_TCP_force", "mystery_var"]).length =
      (row_parts devSample 0 ["timestamp", "actual_q", "actual_TCP_force", "mystery_var"]).length :=
  header_row_width_invariant devSample 0
    ["timestamp", "actual_q", "actual_TCP_force", "mystery_var"] devSample_WF

/-! ## Claim C8: per-variable failure placeholders -/

/-- `row_parts` distributes over append: each variable's cells are
independent of the others. -/
theorem row_parts_append (r : RTDE) (off : Rat) (l1 l2 : List String) :
    row_parts r off (l1 ++ l2) = row_parts r off l1 ++ row_parts r off l2 := by
  simp [row_parts, List.flatMap_append]

/-- C8: when the fetch of `actual_TCP_force` (arity 6) raises, the row
contains exactly six placeholder fields in that variable's columns, the
placeholder is formatted identically to a real zero, every other variable's
columns are unaffected, and the row is still produced in full. -/
theorem row_fetch_failure_placeholders (r : RTDE) (off : Rat) (pre post : List String)
    (hfail : r.getActualTCPForce = none) :
    row_parts r off (pre ++ "actual_TCP_force" :: post) =
      row_parts r off pre ++ List.replicate 6 "0.000000" ++ row_parts r off post ∧
    "0.000000" = fmt6 0 := by
  refine ⟨?_, by decide⟩
  have hcell : row_cells r off "actual_TCP_force" = List.replicate 6 "0.000000" := by
    unfold row_cells
    have hfc : fetch_cells r off "actual_TCP_force" = none := by
      have hv : fetch_cells r off "actual_TCP_force" =
          r.getActualTCPForce.map (fun l => List.map fmt6 l) := rfl
      rw [hv, hfail]
      rfl
    rw [hfc]
    decide
  simp [row_parts, List.flatMap_append, List.flatMap_cons, hcell]

/-- Witness: the placeholder substitution at a concrete device and row. -/
theorem row_fetch_failure_placeholders_witness :
    row_parts devAllFail 0 (["timestamp"] ++ "actual_TCP_force" :: ["actual_q"]) =
      row_parts devAllFail 0 ["timestamp"] ++ List.replicate 6 "0.000000" ++
        row_parts devAllFail 0 ["actual_q"] ∧
    "0.000000" = fmt6 0 :=
  row_fetch_failure_placeholders devAllFail 0 ["timestamp"] ["actual_q"] rfl


/-! ## Claim C5: the "all variables" default -/

set_option maxRecDepth 8000 in
/-- C5: when the variable list is omitted and the variable file is absent,
`main` prints "Recording all available variables" but `record_variables`
stays empty, so the header written is a bare newline with zero columns —
not the 147 columns of the full variable catalog. -/
theorem all_variables_default_records_nothing :
    (resolve_record_variables none none).1 = [] ∧
    (resolve_record_variables none none).2 = "Recording all available variables" ∧
    header_parts [] = [] ∧
    header_line [] = "\n" ∧
    (header_parts (variable_sizes.map Prod.fst)).length = 147 := by
  refine ⟨rfl, rfl, rfl, rfl, by decide⟩

/-! ## Claim C4: rotation-check cadence -/

set_option maxRecDepth 8000 in
/-- C4 counterexample: on an iteration that is not a state-check boundary
(`samples_since_last_check < check_interval`), the rotation triggers are
still evaluated — with the segment size over the 1 MB limit, the iteration
rotates: the file counter increments and a second segment is opened. -/
theorem rotation_fires_off_boundary :
    recState.samples_since_last_check < recState.check_interval ∧
    (step (sizedInput 2) recState).1.file_number = 2 ∧
    (step (sizedInput 2) recState).1.files.length = 2 := by
  refine ⟨by decide, by decide, by decide⟩

/-- C4 (amended): the rotation triggers are evaluated on every iteration on
which a row is written — once per sample, not once per state-check interval:
whenever the size threshold is reached, rotation happens on that very
iteration even off the check boundary. -/
theorem rotation_checked_every_sample (inp : IterInput) (s : LoopState)
    (idx : Nat) (m : Rat)
    (hrec : s.is_recording = true) (hh : s.current_file_handle = some idx)
    (hnb : s.samples_since_last_check < s.check_interval)
    (hm : s.max_file_size_mb = some m) (hm0 : m ≠ 0) (hsz : m ≤ inp.file_size_mb) :
    (step inp s).1.file_number = s.file_number + 1 := by
  have hbne : (m != 0) = true := by
    simp [bne]
    exact hm0
  have hdec : decide (m ≤ inp.file_size_mb) = true := decide_eq_true hsz
  have hsh : ∀ t : LoopState, t.max_file_size_mb = some m →
      rotation_size_hit inp t = true := by
    intro t ht
    simp [rotation_size_hit, truthy, ht, hbne, hdec]
  simp only [step]
  rw [if_neg (by omega : ¬ s.samples_since_last_check ≥ s.check_interval)]
  simp only [stepCombine, rowPhase, hrec, hh, Option.isSome_some, and_true, if_true, truthy, hm,
    Option.getD_some, hbne, hdec, hsh, Bool.true_or, Bool.or_true, Bool.true_and, if_pos]
  cases hro : inp.rotOpenOk <;> simp [rotateSegment, hro]

/-! ## Claim C6: open failure at session start -/

/-- C6: when the `open` at the start of a session raises, the exception is
caught by the handler meant for `runtime_state` read failures, which prints
nothing because `is_recording` is still false: the iteration produces no
output at all, no file is created, recording does not start, and the loop
continues normally — the file-system failure is silently swallowed. -/
theorem open_failure_silently_swallowed :
    (step openFailInput waitState).2.1 = [] ∧
    (step openFailInput waitState).2.2 = false ∧
    (step openFailInput waitState).1.is_recording = false ∧
    (step openFailInput waitState).1.files = [] ∧
    (step openFailInput waitState).1.current_file_handle = none := by
  refine ⟨by decide, by decide, by decide, by decide, by decide⟩

/-! ## Claim C9: interrupt summary -/

/-- C9 counterexample: interrupted while waiting (not recording, 42 samples
seen), the handler prints only the total-sample line — no segment-count line
at all, although the claim requires the summary to contain both counts
regardless of recording state. -/
theorem interrupt_waiting_no_segment_count :
    (handleInterrupt { waitState with i := 42 }).2 =
      ["\nData recording stopped. Total samples: 42"] := by
  decide

/-- Helper: a position-wise description of `closeFile`. -/
theorem closeFile_get (files : List FileRec) (idx j : Nat) :
    (closeFile files idx).get? j =
      if j = idx then (files.get? j).map (fun f => { f with isOpen := false })
      else files.get? j := by
  unfold closeFile
  cases hf : files.get? idx with
  | none =>
    by_cases hj : j = idx
    · subst hj
      rw [if_pos rfl, hf]
      rfl
    · rw [if_neg hj]
  | some f =>
    by_cases hj : j = idx
    · subst hj
      rw [if_pos rfl, List.get?_set_eq, hf]
      rfl
    · rw [if_neg hj, List.get?_set_ne _ _ (Ne.symm hj)]

/-- Helper: a position-wise description of `appendToFile`. -/
theorem appendToFile_get (files : List FileRec) (idx j : Nat) (line : String) :
    (appendToFile files idx line).get? j =
      if j = idx then (files.get? j).map (fun f => { f with lines := f.lines ++ [line] })
      else files.get? j := by
  unfold appendToFile
  cases hf : files.get? idx with
  | none =>
    by_cases hj : j = idx
    · subst hj
      rw [if_pos rfl, hf]
      rfl
    · rw [if_neg hj]
  | some f =>
    by_cases hj : j = idx
    · subst hj
      rw [if_pos rfl, List.get?_set_eq, hf]
      rfl
    · rw [if_neg hj, List.get?_set_ne _ _ (Ne.symm hj)]

/-- C9 (amended): on interrupt the handler closes the open segment (all
files end up closed, given that only the handle's file is open), always
prints the cumulative sample count, and the process exits with code 0; but
the segment count is printed only when the interrupt arrives while recording
with more than one file — interrupted while waiting, or while recording with
a single file, the summary is exactly the one sample-count line. -/
theorem interrupt_cleanup (s : LoopState)
    (hinv : ∀ j f, s.files.get? j = some f → f.isOpen = true →
      s.current_file_handle = some j) :
    (∀ j f, (handleInterrupt s).1.files.get? j = some f → f.isOpen = false) ∧
    ("\nData recording stopped. Total samples: " ++ toString s.i) ∈
      (handleInterrupt s).2 ∧
    interrupt_exit_code = 0 ∧
    (s.is_recording = false →
      (handleInterrupt s).2 =
        ["\nData recording stopped. Total samples: " ++ toString s.i]) ∧
    (s.is_recording = true → s.file_number ≤ 1 →
      (handleInterrupt s).2 =
        ["\nData recording stopped. Total samples: " ++ toString s.i]) ∧
    (s.is_recording = true → 1 < s.file_number →
      ("Recorded " ++ toString s.file_number ++ " file(s)") ∈ (handleInterrupt s).2) := by
  refine ⟨?_, ?_, rfl, ?_, ?_, ?_⟩
  · intro j f hj
    cases hh : s.current_file_handle with
    | none =>
      simp only [handleInterrupt, hh] at hj
      cases hop : f.isOpen with
      | false => rfl
      | true =>
        have hc := hinv j f hj hop
        rw [hh] at hc
        exact absurd hc (by simp)
    | some idx =>
      simp only [handleInterrupt, hh] at hj
      rw [closeFile_get] at hj
      by_cases hji : j = idx
      · rw [if_pos hji] at hj
        obtain ⟨g, hg, rfl⟩ := Option.map_eq_some'.mp hj
        rfl
      · rw [if_neg hji] at hj
        cases hop : f.isOpen with
        | false => rfl
        | true =>
          have hc := hinv j f hj hop
          rw [hh] at hc
          exact absurd (Option.some.inj hc) (fun hq => hji hq.symm)
  · simp [handleInterrupt]
  · intro hr
    simp [handleInterrupt, hr]
  · intro hr hle
    simp [handleInterrupt, hr, Nat.not_lt.mpr hle]
  · intro hr hlt
    simp [handleInterrupt, hr, hlt]

/-- Witness for the interrupt-cleanup theorem at the concrete recording
state: its single file is the open handle target. -/
theorem interrupt_cleanup_witness :
    (∀ j f, (handleInterrupt recState).1.files.get? j = some f →
      f.isOpen = false) ∧
    ("\nData recording stopped. Total samples: " ++ toString recState.i) ∈
      (handleInterrupt recState).2 ∧
    interrupt_exit_code = 0 ∧
    (recState.is_recording = false →
      (handleInterrupt recState).2 =
        ["\nData recording stopped. Total samples: " ++ toString recState.i]) ∧
    (recState.is_recording = true → recState.file_number ≤ 1 →
      (handleInterrupt recState).2 =
        ["\nData recording stopped. Total samples: " ++ toString recState.i]) ∧
    (recState.is_recording = true → 1 < recState.file_number →
      ("Recorded " ++ toString recState.file_number ++ " file(s)") ∈
        (handleInterrupt recState).2) :=
  interrupt_cleanup recState (by
    intro j f hj hop
    match j with
    | 0 => rfl
    | j + 1 => exact nomatch hj)


/-! ## Claim C7: segment naming and rotation counter -/

set_option maxRecDepth 8000 in
/-- C7: segment filenames follow `base_<timestamp>[_<NNN>].ext` with the
counter zero-padded to 3 digits; at a session start the counter suffix
`_001` is present exactly when a rotation policy is active or a previous
session has already recorded; and in Scenario B (1 MB size limit, reported
segment sizes 0.5 MB then 1.1 MB on successive iterations) rotation fires at
the second check, the file counter increments from 1 to 2, and the new
segment carries the `_002` suffix. -/
theorem segment_naming (inp : CheckInput) (s : LoopState)
    (hrs : inp.runtime_state = some 2) (hrec : s.is_recording = false)
    (hlast : s.last_runtime_state = some 2)
    (hcnt : stable_state_threshold ≤ s.stable_state_count + 1) :
    ((truthy s.max_file_size_mb || truthy s.max_duration_seconds ||
        s.has_recorded_before) = true →
      (checkPhase inp s).1.current_output_file =
        some ((splitext s.output_base).1 ++ "_" ++ inp.nowStr ++ "_" ++
          zpad (toString 1) 3 ++ (splitext s.output_base).2)) ∧
    ((truthy s.max_file_size_mb || truthy s.max_duration_seconds ||
        s.has_recorded_before) = false →
      (checkPhase inp s).1.current_output_file =
        some ((splitext s.output_base).1 ++ "_" ++ inp.nowStr ++
          (splitext s.output_base).2)) ∧
    zpad (toString 2) 3 = "002" ∧
    (step (sizedInput (mkRat 1 2)) recState).1.file_number = 1 ∧
    (step (sizedInput (mkRat 1 2)) recState).1.files.length = 1 ∧
    (step (sizedInput (mkRat 11 10)) (step (sizedInput (mkRat 1 2)) recState).1).1.file_number
      = 2 ∧
    (step (sizedInput (mkRat 11 10))
        (step (sizedInput (mkRat 1 2)) recState).1).1.current_output_file =
      some "robot_data_2024-01-15_14-30-45_002.csv" ∧
    (step (sizedInput (mkRat 11 10)) (step (sizedInput (mkRat 1 2)) recState).1).1.files.length
      = 2 := by
  have hcnt2 : 2 ≤ s.stable_state_count := by
    have h3 : (3 : Nat) ≤ s.stable_state_count + 1 := hcnt
    omega
  refine ⟨?_, ?_, by decide, by decide, by decide, by decide, by decide, by decide⟩
  · intro hcond
    cases hok : inp.openOk <;>
      simp [checkPhase, debounceUpdate, startRecording, hrs, hlast, hrec,
        RUNTIME_STATE_PLAYING, stable_state_threshold, hcnt2, hcond,
        add_timestamp_to_filename, hok]
  · intro hcond
    cases hok : inp.openOk <;>
      simp [checkPhase, debounceUpdate, startRecording, hrs, hlast, hrec,
        RUNTIME_STATE_PLAYING, stable_state_threshold, hcnt2, hcond,
        add_timestamp_to_filename, hok]

/-- Witness: at the concrete waiting state (no rotation policy, no previous
session), the session-start filename carries no counter suffix. -/
theorem segment_naming_witness :
    (checkPhase (plainCheck (some 2)) waitState).1.current_output_file =
      some ((splitext waitState.output_base).1 ++ "_" ++
        (plainCheck (some 2)).nowStr ++ (splitext waitState.output_base).2) :=
  (segment_naming (plainCheck (some 2)) waitState rfl rfl rfl (by decide)).2.1 rfl

/-- Witness: rotation fires on a non-boundary sample whenever the size
threshold is met, at the concrete recording state. -/
theorem rotation_checked_every_sample_witness :
    (step (sizedInput 2) recState).1.file_number = recState.file_number + 1 :=
  rotation_checked_every_sample (sizedInput 2) recState 0 1 rfl rfl (by decide) rfl
    (by decide) (by decide)


/-! ## Claim C10: the handle/recording invariant -/

/-- Appending keeps a nonempty list's first element. -/
theorem head?_append_some {α : Type} {l1 l2 : List α} {a : α}
    (h : l1.head? = some a) : (l1 ++ l2).head? = some a := by
  cases l1 with
  | nil => exact nomatch h
  | cons x xs => simpa using h

/-- Closing a handle target does not change the number of files. -/
theorem closeFile_length (files : List FileRec) (idx : Nat) :
    (closeFile files idx).length = files.length := by
  unfold closeFile
  cases hf : files.get? idx <;> simp

/-- Writing a line does not change the number of files. -/
theorem appendToFile_length (files : List FileRec) (idx : Nat) (line : String) :
    (appendToFile files idx line).length = files.length := by
  unfold appendToFile
  cases hf : files.get? idx <;> simp

/-- The session-start block preserves the invariant: from a non-recording
state (whose files are hence all closed), either the open succeeds and the
fresh segment — with its header as first line — becomes the unique open file
and the handle target, or the open raises and nothing observable changes. -/
theorem startRecording_preserves_Inv (inp : CheckInput) (s1 : LoopState)
    (h : Inv s1) (hrec : s1.is_recording = false) :
    Inv (startRecording inp s1).1 := by
  obtain ⟨h1, h2, h3⟩ := h
  have hnone : s1.current_file_handle = none := by
    rcases hcf : s1.current_file_handle with _ | idx
    · rfl
    · have hr := h1.mpr (by rw [hcf]; simp)
      rw [hrec] at hr
      exact absurd hr (by simp)
  have hnoopen : ∀ j f, s1.files.get? j = some f → f.isOpen = true → False := by
    intro j f hj hop
    have hc := h3 j f hj hop
    rw [hnone] at hc
    exact absurd hc (by simp)
  unfold startRecording
  cases hok : inp.openOk with
  | false =>
    exact ⟨h1, h2, h3⟩
  | true =>
    simp only [eq_self_iff_true, if_true]
    refine ⟨by simp, ?_, ?_⟩
    · intro k hk
      have hkk : k = s1.files.length := by
        simpa using hk.symm
      subst hkk
      exact ⟨_, List.get?_concat_length _ _, rfl, rfl⟩
    · intro j f hj hop
      rcases Nat.lt_trichotomy j s1.files.length with hlt | heq | hgt
      · rw [List.get?_append hlt] at hj
        exact (hnoopen j f hj hop).elim
      · subst heq
        rfl
      · obtain ⟨hb, _⟩ := List.get?_eq_some.mp hj
        simp only [List.length_append, List.length_singleton] at hb
        exact absurd hb (by omega)

/-- The session-stop block preserves the invariant: the handle target is
closed and released, leaving no open file. -/
theorem stopRecording_preserves_Inv (rs : Nat) (s1 : LoopState) (h : Inv s1) :
    Inv (stopRecording rs s1).1 := by
  obtain ⟨h1, h2, h3⟩ := h
  unfold stopRecording
  cases hcf : s1.current_file_handle with
  | none =>
    refine ⟨by simp [hcf], by simp [hcf], ?_⟩
    intro j f hj hop
    have hc := h3 j f hj hop
    rw [hcf] at hc
    exact absurd hc (by simp)
  | some idx =>
    refine ⟨by simp, by simp, ?_⟩
    intro j f hj hop
    rw [closeFile_get] at hj
    by_cases hji : j = idx
    · rw [if_pos hji] at hj
      obtain ⟨g, hg, rfl⟩ := Option.map_eq_some'.mp hj
      exact absurd hop (by simp)
    · rw [if_neg hji] at hj
      have hc := h3 j f hj hop
      rw [hcf] at hc
      exact absurd (Option.some.inj hc) (fun hq => hji hq.symm)

/-- The periodic state check preserves the invariant on every path: state
read failure, pure debounce, session start (open success or failure) and
session stop. -/
theorem checkPhase_preserves_Inv (inp : CheckInput) (s : LoopState) (h : Inv s) :
    Inv (checkPhase inp s).1 := by
  cases hrs : inp.runtime_state with
  | none =>
    simp only [checkPhase, hrs]
    exact h
  | some rs =>
    have hs1 : Inv (debounceUpdate rs s) := by
      unfold debounceUpdate
      by_cases hc : some rs = s.last_runtime_state
      · rw [if_pos hc]; exact h
      · rw [if_neg hc]; exact h
    simp only [checkPhase, hrs]
    by_cases hA : rs = RUNTIME_STATE_PLAYING ∧ (debounceUpdate rs s).is_recording = false
    · rw [if_pos hA]
      by_cases hB : (debounceUpdate rs s).stable_state_count ≥ stable_state_threshold
      · rw [if_pos hB]
        exact startRecording_preserves_Inv inp _ hs1 hA.2
      · rw [if_neg hB]
        exact hs1
    · rw [if_neg hA]
      by_cases hC : rs ≠ RUNTIME_STATE_PLAYING ∧ (debounceUpdate rs s).is_recording = true
      · rw [if_pos hC]
        by_cases hD : (debounceUpdate rs s).stable_state_count ≥ 2
        · rw [if_pos hD]
          exact stopRecording_preserves_Inv rs _ hs1
        · rw [if_neg hD]
          exact hs1
      · rw [if_neg hC]
        exact hs1

/-- Rotation preserves the invariant when its `open` succeeds: the previous
segment is closed and the fresh segment, header first, becomes the unique
open file and the new handle target. -/
theorem rotateSegment_preserves_Inv (inp : IterInput) (idx : Nat) (s1 : LoopState)
    (h : Inv s1) (hh : s1.current_file_handle = some idx)
    (hnc : (rotateSegment inp idx s1).2.2 = false) :
    Inv (rotateSegment inp idx s1).1 := by
  obtain ⟨h1, h2, h3⟩ := h
  unfold rotateSegment at hnc ⊢
  cases hro : inp.rotOpenOk with
  | false =>
    rw [hro] at hnc
    simp at hnc
  | true =>
    simp only [eq_self_iff_true, if_true]
    have hr : s1.is_recording = true := h1.mpr (by rw [hh]; simp)
    refine ⟨by simp [hr], ?_, ?_⟩
    · intro k hk
      have hkk : k = (closeFile s1.files idx).length := by
        simpa using hk.symm
      subst hkk
      exact ⟨_, List.get?_concat_length _ _, rfl, rfl⟩
    · intro j f hj hop
      rcases Nat.lt_trichotomy j (closeFile s1.files idx).length with hlt | heq | hgt
      · rw [List.get?_append hlt] at hj
        rw [closeFile_get] at hj
        by_cases hji : j = idx
        · rw [if_pos hji] at hj
          obtain ⟨g, hg, rfl⟩ := Option.map_eq_some'.mp hj
          exact absurd hop (by simp)
        · rw [if_neg hji] at hj
          have hc := h3 j f hj hop
          rw [hh] at hc
          exact absurd (Option.some.inj hc) (fun hq => hji hq.symm)
      · subst heq
        rfl
      · obtain ⟨hb, _⟩ := List.get?_eq_some.mp hj
        simp only [List.length_append, List.length_singleton] at hb
        exact absurd hb (by omega)

/-- The row-write / rotation block preserves the invariant whenever it does
not die on a failed rotation open. -/
theorem rowPhase_preserves_Inv (inp : IterInput) (s : LoopState) (h : Inv s)
    (hnc : (rowPhase inp s).2.2 = false) : Inv (rowPhase inp s).1 := by
  obtain ⟨h1, h2, h3⟩ := h
  unfold rowPhase at hnc ⊢
  by_cases hA : s.is_recording = true ∧ s.current_file_handle.isSome
  · rw [if_pos hA] at hnc ⊢
    cases hcf : s.current_file_handle with
    | none => exact ⟨h1, h2, h3⟩
    | some idx =>
      rw [hcf] at hnc
      simp only [] at hnc ⊢
      have hInv1 : Inv { s with current_file_handle := some idx, files := appendToFile s.files idx (row_line inp.dev s.timestamp_offset s.record_variables) } := by
        refine ⟨?_, ?_, ?_⟩
        · simp [hA.1]
        · intro k hk
          have hki : k = idx := (Option.some.inj hk).symm
          subst hki
          obtain ⟨f, hf, hop, hhead⟩ := h2 k hcf
          refine ⟨{ f with lines := f.lines ++ [row_line inp.dev s.timestamp_offset s.record_variables] }, ?_, hop, ?_⟩
          · rw [appendToFile_get, if_pos rfl, hf]
            rfl
          · exact head?_append_some hhead
        · intro j f hj hop
          rw [appendToFile_get] at hj
          by_cases hji : j = idx
          · rw [hji]
          · rw [if_neg hji] at hj
            have hc := h3 j f hj hop
            rw [hcf] at hc
            exact hc
      by_cases hp : (truthy s.max_file_size_mb || truthy s.max_duration_seconds) = true
      · rw [if_pos hp] at hnc ⊢
        cases hhit : (rotation_size_hit inp { s with current_file_handle := some idx, files := appendToFile s.files idx (row_line inp.dev s.timestamp_offset s.record_variables) } || rotation_dur_hit inp { s with current_file_handle := some idx, files := appendToFile s.files idx (row_line inp.dev s.timestamp_offset s.record_variables) }) with
        | true =>
          rw [hhit] at hnc
          rw [if_pos rfl] at hnc ⊢
          exact rotateSegment_preserves_Inv inp idx _ hInv1 rfl hnc
        | false =>
          rw [hhit] at hnc
          rw [if_neg (by simp)] at hnc ⊢
          exact hInv1
      · rw [if_neg hp] at hnc ⊢
        exact hInv1
  · rw [if_neg hA] at hnc ⊢
    exact ⟨h1, h2, h3⟩

/-- The post-check tail of an iteration (row, rotation, status, counter
increments) preserves the invariant when it does not crash. -/
theorem stepCombine_preserves_Inv (inp : IterInput) (c : LoopState × List String)
    (h : Inv c.1) (hnc : (stepCombine inp c).2.2 = false) :
    Inv (stepCombine inp c).1 := by
  unfold stepCombine at hnc ⊢
  simp only [] at hnc ⊢
  cases hcr : (rowPhase inp c.1).2.2 with
  | true =>
    rw [hcr] at hnc
    rw [if_pos rfl] at hnc
    simp at hnc
  | false =>
    rw [hcr] at hnc
    rw [if_neg (by simp)] at hnc ⊢
    exact rowPhase_preserves_Inv inp c.1 h hcr

/-- One loop iteration preserves the invariant when it does not crash. -/
theorem step_preserves_Inv (inp : IterInput) (s : LoopState) (h : Inv s)
    (hnc : (step inp s).2.2 = false) : Inv (step inp s).1 := by
  unfold step at hnc ⊢
  by_cases hchk : s.samples_since_last_check ≥ s.check_interval
  · rw [if_pos hchk] at hnc ⊢
    exact stepCombine_preserves_Inv inp _
      (checkPhase_preserves_Inv inp.check { s with samples_since_last_check := 0 } h) hnc
  · rw [if_neg hchk] at hnc ⊢
    exact stepCombine_preserves_Inv inp _ h hnc

/-- C10: at the start of every iteration, `is_recording` holds iff
`current_file_handle` refers to an open file whose first line is the header,
and at most one file is open; the invariant holds initially and is preserved
by every non-crashing iteration — session start, session stop, rotation and
state-read-failure paths included — so data rows are only ever written to an
open, header-initialized segment. -/
theorem handle_recording_invariant :
    (∀ out freq msize mdur vs, Inv (initState out freq msize mdur vs)) ∧
    (∀ inp s, Inv s → (step inp s).2.2 = false → Inv (step inp s).1) ∧
    (∀ s, Inv s → ∀ j k fj fk, s.files.get? j = some fj → s.files.get? k = some fk →
      fj.isOpen = true → fk.isOpen = true → j = k) := by
  refine ⟨?_, step_preserves_Inv, ?_⟩
  · intro out freq msize mdur vs
    refine ⟨by simp [initState], by simp [initState], ?_⟩
    intro j f hj
    simp [initState] at hj
  · intro s hs j k fj fk hj hk hoj hok
    obtain ⟨h1, h2, h3⟩ := hs
    have hcj := h3 j fj hj hoj
    have hck := h3 k fk hk hok
    rw [hcj] at hck
    exact Option.some.inj hck

/-- Witness: the invariant holds at the concrete recording state, is
preserved by a concrete iteration on it, and its single file admits no
second open index. -/
theorem handle_recording_invariant_witness :
    Inv (initState "robot_data.csv" 250 none none ["timestamp"]) ∧
    (Inv recState → (step (sizedInput 2) recState).2.2 = false →
      Inv (step (sizedInput 2) recState).1) :=
  ⟨handle_recording_invariant.1 "robot_data.csv" 250 none none ["timestamp"],
   handle_recording_invariant.2.1 (sizedInput 2) recState⟩


/-! ## Claim C3: the single timestamp anchor -/

/-- The debounce update changes only the stability counter and the
remembered state. -/
theorem debounceUpdate_fields (rs : Nat) (s : LoopState) :
    (debounceUpdate rs s).is_recording = s.is_recording ∧
    (debounceUpdate rs s).timestamp_offset = s.timestamp_offset ∧
    (debounceUpdate rs s).record_variables = s.record_variables ∧
    (debounceUpdate rs s).files = s.files := by
  unfold debounceUpdate
  split
  · exact ⟨rfl, rfl, rfl, rfl⟩
  · exact ⟨rfl, rfl, rfl, rfl⟩

/-- While recording, a PLAYING check only updates the debounce window:
neither transition branch fires and nothing is printed. -/
theorem checkPhase_playing_recording_eq (inp : CheckInput) (s : LoopState)
    (hrec : s.is_recording = true) (hplay : inp.runtime_state = some 2) :
    checkPhase inp s = (debounceUpdate 2 s, []) := by
  simp only [checkPhase, hplay]
  rw [if_neg, if_neg]
  · intro hand
    exact absurd hand.1 (fun hq => hq rfl)
  · intro hand
    have h2' := hand.2
    rw [(debounceUpdate_fields 2 s).1, hrec] at h2'
    exact absurd h2' (by simp)

/-- A line of a file list after a row write is an old line or the row. -/
theorem mem_appendToFile_lines (files : List FileRec) (idx : Nat) (ln : String)
    (line : String)
    (hline : line ∈ ((appendToFile files idx ln).map FileRec.lines).flatten) :
    line ∈ (files.map FileRec.lines).flatten ∨ line = ln := by
  unfold appendToFile at hline
  cases hf : files.get? idx with
  | none =>
    rw [hf] at hline
    exact Or.inl hline
  | some f =>
    rw [hf] at hline
    obtain ⟨L, hL, hmem⟩ := List.mem_flatten.mp hline
    obtain ⟨g, hg, rfl⟩ := List.mem_map.mp hL
    rcases List.mem_or_eq_of_mem_set hg with hgold | hgnew
    · exact Or.inl (List.mem_flatten.mpr ⟨g.lines, List.mem_map_of_mem _ hgold, hmem⟩)
    · subst hgnew
      rcases List.mem_append.mp hmem with hold | hnew
    
      · exact Or.inl (List.mem_flatten.mpr
          ⟨f.lines, List.mem_map_of_mem _ (List.get?_mem hf), hold⟩)
      · exact Or.inr (by simpa using hnew)

/-- Closing a file adds no line. -/
theorem mem_closeFile_lines (files : List FileRec) (idx : Nat) (line : String)
    (hline : line ∈ ((closeFile files idx).map FileRec.lines).flatten) :
    line ∈ (files.map FileRec.lines).flatten := by
  unfold closeFile at hline
  cases hf : files.get? idx with
  | none =>
    rw [hf] at hline
    exact hline
  | some f =>
    rw [hf] at hline
    obtain ⟨L, hL, hmem⟩ := List.mem_flatten.mp hline
    obtain ⟨g, hg, rfl⟩ := List.mem_map.mp hL
    rcases List.mem_or_eq_of_mem_set hg with hgold | hgnew
    · exact List.mem_flatten.mpr ⟨g.lines, List.mem_map_of_mem _ hgold, hmem⟩
    · subst hgnew
      exact List.mem_flatten.mpr
        ⟨f.lines, List.mem_map_of_mem _ (List.get?_mem hf), hmem⟩

/-- The row write and rotation block: the offset, recording flag and
variable list are untouched, and every line it adds is either the data row
(built with the state's current offset) or a fresh header. -/
theorem rowPhase_line_facts (inp : IterInput) (s : LoopState) :
    (rowPhase inp s).1.timestamp_offset = s.timestamp_offset ∧
    (rowPhase inp s).1.is_recording = s.is_recording ∧
    (rowPhase inp s).1.record_variables = s.record_variables ∧
    ∀ line ∈ allLines (rowPhase inp s).1,
      line ∈ allLines s ∨ line = header_line s.record_variables ∨
      line = row_line inp.dev s.timestamp_offset s.record_variables := by
  unfold rowPhase
  by_cases hA : s.is_recording = true ∧ s.current_file_handle.isSome
  · rw [if_pos hA]
    cases hcf : s.current_file_handle with
    | none => exact ⟨rfl, rfl, rfl, fun line h => Or.inl h⟩
    | some idx =>
      simp only []
      by_cases hp : (truthy s.max_file_size_mb || truthy s.max_duration_seconds) = true
      · rw [if_pos hp]
        cases hhit : (rotation_size_hit inp { s with current_file_handle := some idx, files := appendToFile s.files idx (row_line inp.dev s.timestamp_offset s.record_variables) } || rotation_dur_hit inp { s with current_file_handle := some idx, files := appendToFile s.files idx (row_line inp.dev s.timestamp_offset s.record_variables) }) with
        | true =>
          rw [if_pos rfl]
          unfold rotateSegment
          cases hro : inp.rotOpenOk with
          | true =>
            simp only [eq_self_iff_true, if_true]
            refine ⟨by trivial, by trivial, by trivial, ?_⟩
            intro line hline
            unfold allLines at hline
            simp only [List.map_append, List.flatten_append] at hline
            rcases List.mem_append.mp hline with hleft | hright
            · have hc := mem_closeFile_lines _ idx line hleft
              rcases mem_appendToFile_lines s.files idx _ line hc with hold | hrow
              · exact Or.inl hold
              · exact Or.inr (Or.inr hrow)
            · simp only [List.map_cons, List.map_nil, List.flatten_cons,
                List.flatten_nil, List.append_nil] at hright
              exact Or.inr (Or.inl (by simpa using hright))
          | false =>
            simp only [Bool.false_eq_true, if_false]
            refine ⟨by trivial, by trivial, by trivial, ?_⟩
            intro line hline
            unfold allLines at hline
            have hc := mem_closeFile_lines _ idx line hline
            rcases mem_appendToFile_lines s.files idx _ line hc with hold | hrow
            · exact Or.inl hold
            · exact Or.inr (Or.inr hrow)
        | false =>
          rw [if_neg (by simp)]
          refine ⟨rfl, rfl, rfl, ?_⟩
          intro line hline
          rcases mem_appendToFile_lines s.files idx _ line hline with hold | hrow
          · exact Or.inl hold
          · exact Or.inr (Or.inr hrow)
      · rw [if_neg hp]
        refine ⟨rfl, rfl, rfl, ?_⟩
        intro line hline
        rcases mem_appendToFile_lines s.files idx _ line hline with hold | hrow
        · exact Or.inl hold
        · exact Or.inr (Or.inr hrow)
  · rw [if_neg hA]
    exact ⟨rfl, rfl, rfl, fun line h => Or.inl h⟩

/-- One iteration under a PLAYING read while recording: recording persists,
the anchor offset and variable list are unchanged, and every new line is the
header or a data row built with the unchanged offset. -/
theorem step_playing_facts (inp : IterInput) (s : LoopState)
    (hrec : s.is_recording = true)
    (hplay : inp.check.runtime_state = some 2) :
    (step inp s).1.timestamp_offset = s.timestamp_offset ∧
    (step inp s).1.is_recording = true ∧
    (step inp s).1.record_variables = s.record_variables ∧
    ∀ line ∈ allLines (step inp s).1,
      line ∈ allLines s ∨ line = header_line s.record_variables ∨
      line = row_line inp.dev s.timestamp_offset s.record_variables := by
  unfold step
  have hrows := fun (t : LoopState) => rowPhase_line_facts inp t
  by_cases hchk : s.samples_since_last_check ≥ s.check_interval
  · rw [if_pos hchk]
    rw [checkPhase_playing_recording_eq inp.check
      { s with samples_since_last_check := 0 } hrec hplay]
    have hdb := debounceUpdate_fields 2 { s with samples_since_last_check := 0 }
    unfold stepCombine
    simp only []
    have hr := hrows (debounceUpdate 2 { s with samples_since_last_check := 0 })
    cases hcr : (rowPhase inp (debounceUpdate 2 { s with samples_since_last_check := 0 })).2.2 with
    | true =>
      rw [if_pos rfl]
      refine ⟨?_, ?_, ?_, ?_⟩
      · rw [hr.1, hdb.2.1]
      · rw [hr.2.1, hdb.1]
        exact hrec
      · rw [hr.2.2.1, hdb.2.2.1]
      · intro line hline
        have hres := hr.2.2.2 line hline
        rw [hdb.2.1, hdb.2.2.1] at hres
        have hfl : allLines (debounceUpdate 2 { s with samples_since_last_check := 0 }) =
            allLines s := by
          unfold allLines
          rw [hdb.2.2.2]
        rw [hfl] at hres
        exact hres
    | false =>
      rw [if_neg (by simp)]
      refine ⟨?_, ?_, ?_, ?_⟩
      · rw [hr.1, hdb.2.1]
      · rw [hr.2.1, hdb.1]
        exact hrec
      · rw [hr.2.2.1, hdb.2.2.1]
      · intro line hline
        have hres := hr.2.2.2 line hline
        rw [hdb.2.1, hdb.2.2.1] at hres
        have hfl : allLines (debounceUpdate 2 { s with samples_since_last_check := 0 }) =
            allLines s := by
          unfold allLines
          rw [hdb.2.2.2]
        rw [hfl] at hres
        exact hres
  · rw [if_neg hchk]
    unfold stepCombine
    simp only []
    have hr := hrows s
    cases hcr : (rowPhase inp s).2.2 with
    | true =>
      rw [if_pos rfl]
      refine ⟨hr.1, ?_, hr.2.2.1, hr.2.2.2⟩
      rw [hr.2.1]
      exact hrec
    | false =>
      rw [if_neg (by simp)]
      refine ⟨hr.1, ?_, hr.2.2.1, hr.2.2.2⟩
      rw [hr.2.1]
      exact hrec

/-- The timestamp cell of a row is the device timestamp plus the offset. -/
theorem timestamp_cell_eq (dev : RTDE) (t off : Rat)
    (h : dev.getTimestamp = some t) :
    row_cells dev off "timestamp" = [fmt6 (t + off)] := by
  unfold row_cells
  have hfc : fetch_cells dev off "timestamp" =
      dev.getTimestamp.map (fun u => [fmt6 (u + off)]) := rfl
  rw [hfc, h]
  rfl

/-- C3: while a session lasts (every check in the run reads PLAYING, so the
session never ends), the timestamp offset anchored at the session start is
never recomputed — rotations included — recording stays on, and every line
added to any segment during the run is a header or a data row built with
that single unchanged offset; the row's timestamp cell is
`fmt6 (deviceTimestamp + offset)`. -/
theorem single_anchor_invariant (inputs : List IterInput) (s : LoopState)
    (hrec : s.is_recording = true)
    (hplay : ∀ inp ∈ inputs, inp.check.runtime_state = some 2) :
    (runLoop inputs s).1.timestamp_offset = s.timestamp_offset ∧
    (runLoop inputs s).1.is_recording = true ∧
    (∀ line ∈ allLines (runLoop inputs s).1,
      line ∈ allLines s ∨ line = header_line s.record_variables ∨
      ∃ inp ∈ inputs, line = row_line inp.dev s.timestamp_offset s.record_variables) ∧
    (∀ (dev : RTDE) (t off : Rat), dev.getTimestamp = some t →
      row_cells dev off "timestamp" = [fmt6 (t + off)]) := by
  induction inputs generalizing s with
  | nil =>
    exact ⟨rfl, hrec, fun line h => Or.inl h, timestamp_cell_eq⟩
  | cons inp rest ih =>
    have hstep := step_playing_facts inp s hrec (hplay inp (List.mem_cons_self _ _))
    unfold runLoop
    simp only []
    cases hcr : (step inp s).2.2 with
    | true =>
      rw [if_pos rfl]
      refine ⟨hstep.1, hstep.2.1, ?_, timestamp_cell_eq⟩
      intro line hline
      rcases hstep.2.2.2 line hline with hold | hhd | hrow
      · exact Or.inl hold
      · exact Or.inr (Or.inl hhd)
      · exact Or.inr (Or.inr ⟨inp, List.mem_cons_self _ _, hrow⟩)
    | false =>
      rw [if_neg (by simp)]
      have hih := ih (step inp s).1 hstep.2.1
        (fun inp2 hm => hplay inp2 (List.mem_cons_of_mem _ hm))
      refine ⟨?_, hih.2.1, ?_, timestamp_cell_eq⟩
      · rw [hih.1, hstep.1]
      · intro line hline
        rcases hih.2.2.1 line hline with hin | hhd | ⟨inp2, hm2, hrow2⟩
        · rcases hstep.2.2.2 line hin with hold | hhd2 | hrow
          · exact Or.inl hold
          · exact Or.inr (Or.inl hhd2)
          · exact Or.inr (Or.inr ⟨inp, List.mem_cons_self _ _, hrow⟩)
        · rw [hstep.2.2.1] at hhd
          exact Or.inr (Or.inl hhd)
        · rw [hstep.1, hstep.2.2.1] at hrow2
          exact Or.inr (Or.inr ⟨inp2, List.mem_cons_of_mem _ hm2, hrow2⟩)

/-- Witness: a concrete two-iteration PLAYING run (with a rotation) from the
concrete recording state keeps the session's anchor offset unchanged. -/
theorem single_anchor_invariant_witness :
    (runLoop [sizedInput (mkRat 1 2), sizedInput (mkRat 11 10)] recState).1.timestamp_offset =
      recState.timestamp_offset :=
  (single_anchor_invariant [sizedInput (mkRat 1 2), sizedInput (mkRat 11 10)] recState rfl
    (by
      intro inp hm
      rcases List.mem_cons.mp hm with h1 | hm2
      · rw [h1]
        rfl
      · rcases List.mem_cons.mp hm2 with h2 | hm3
        · rw [h2]
          rfl
        · exact absurd hm3 (by simp))).1

end RecordData
